import Mathlib

/-!
Verification of the ambulance dispatch server (socket layer of the main
server file, referred to below by its handler line ranges).

The embedding models the shared mutable state of the process — the MongoDB
collections (`Ambulance`, `EmergencyRequest`) and the two in-memory maps
(`activeDrivers`, `pendingRequests`) — as association-list finite maps keyed
by strings, and each socket event handler as an explicit state transformer
that also returns the ordered list of observable actions it performs
(successful store writes, room joins, and emitted events).

Store operations that can reject (`await`ed mongoose calls) take an explicit
Boolean failure flag; a raised flag means the corresponding call throws and
control jumps to the enclosing `catch` block, exactly as in the source.
-/

/-- String-keyed association map, the common shape of the MongoDB
collections (keyed by their query field) and the two JS `Map`s. -/
abbrev SMap (α : Type) := List (String × α)

/-- First binding for the key, as `Map.get` / mongoose `findOne`. -/
def SMap.find? {α : Type} : SMap α → String → Option α
  | [], _ => none
  | p :: t, k => if p.1 = k then some p.2 else SMap.find? t k

/-- Remove every binding for the key, as `Map.delete`. -/
def SMap.erase {α : Type} : SMap α → String → SMap α
  | [], _ => []
  | p :: t, k => if p.1 = k then SMap.erase t k else p :: SMap.erase t k

/-- Insert or overwrite, as `Map.set`. -/
def SMap.insert {α : Type} (m : SMap α) (k : String) (v : α) : SMap α :=
  (k, v) :: SMap.erase m k

/-- Patch the record stored at the key if present, as mongoose
`findOneAndUpdate` / `findByIdAndUpdate` (no-op when no record matches). -/
def SMap.update {α : Type} (m : SMap α) (k : String) (f : α → α) : SMap α :=
  match SMap.find? m k with
  | some v => SMap.insert m k (f v)
  | none => m

theorem SMap.find?_insert_self {α : Type} (m : SMap α) (k : String) (v : α) :
    SMap.find? (SMap.insert m k v) k = some v := by
  simp [SMap.insert, SMap.find?]

theorem SMap.find?_erase_self {α : Type} (m : SMap α) (k : String) :
    SMap.find? (SMap.erase m k) k = none := by
  induction m with
  | nil => rfl
  | cons p t ih =>
    by_cases h : p.1 = k <;> simp [SMap.erase, SMap.find?, h, ih]

theorem SMap.erase_erase {α : Type} (m : SMap α) (k : String) :
    SMap.erase (SMap.erase m k) k = SMap.erase m k := by
  induction m with
  | nil => rfl
  | cons p t ih =>
    by_cases h : p.1 = k <;> simp [SMap.erase, h, ih]

theorem SMap.erase_of_find?_none {α : Type} (m : SMap α) (k : String)
    (h : SMap.find? m k = none) : SMap.erase m k = m := by
  induction m with
  | nil => rfl
  | cons p t ih =>
    by_cases hp : p.1 = k
    · simp [SMap.find?, hp] at h
    · simp [SMap.find?, hp] at h
      simp [SMap.erase, hp, ih h]

theorem SMap.find?_update_self {α : Type} (m : SMap α) (k : String) (f : α → α)
    (v : α) (h : SMap.find? m k = some v) :
    SMap.find? (SMap.update m k f) k = some (f v) := by
  simp [SMap.update, h, SMap.find?_insert_self]

theorem SMap.mem_erase {α : Type} (m : SMap α) (k : String)
    (p : String × α) (h : p ∈ SMap.erase m k) : p ∈ m := by
  induction m with
  | nil => simp [SMap.erase] at h
  | cons q t ih =>
    by_cases hq : q.1 = k
    · simp [SMap.erase, hq] at h
      exact List.mem_cons_of_mem q (ih h)
    · simp [SMap.erase, hq] at h
      rcases h with h | h
      · simp [h]
      · exact List.mem_cons_of_mem q (ih h)

theorem SMap.mem_insert {α : Type} (m : SMap α) (k : String) (v : α)
    (p : String × α) (h : p ∈ SMap.insert m k v) : p = (k, v) ∨ p ∈ m := by
  simp only [SMap.insert, List.mem_cons] at h
  rcases h with h | h
  · exact Or.inl h
  · exact Or.inr (SMap.mem_erase m k p h)

theorem SMap.mem_update {α : Type} (m : SMap α) (k : String) (f : α → α)
    (p : String × α) (h : p ∈ SMap.update m k f) :
    p ∈ m ∨ ∃ v, SMap.find? m k = some v ∧ p = (k, f v) := by
  unfold SMap.update at h
  cases hf : SMap.find? m k with
  | none => rw [hf] at h; exact Or.inl h
  | some v =>
    rw [hf] at h
    rcases SMap.mem_insert _ _ _ _ h with h' | h'
    · exact Or.inr ⟨v, rfl, h'⟩
    · exact Or.inl h'

/-! ## Data model (schemas of `models/Ambulance.js`, `models/Emergency.js`) -/

/-- The `location` subdocument of `EmergencyRequestSchema`. -/
structure Location where
  latitude : Int
  longitude : Int
  address : Option String
deriving DecidableEq, Repr

/-- An `Ambulance` document. The collection is keyed by `vehicleId` in this
model since every query in scope filters on it. The `discount` flag is the
opaque Boolean referenced by the status handlers. -/
structure AmbulanceRec where
  userId : String
  vehicleId : String
  vehicleType : String
  latitude : Option Int
  longitude : Option Int
  lastUpdated : Option Nat
  status : String
  discount : Bool
deriving DecidableEq, Repr

/-- An `EmergencyRequest` document; the collection is keyed by `_id`. -/
structure EmergencyRec where
  requesterId : String
  location : Location
  ambulanceId : Option String
  status : String
  emergencyDetails : Option String
  patientCount : Nat
  criticalLevel : String
  createdAt : Nat
deriving DecidableEq, Repr

/-- A value of the `activeDrivers` map (socket id to vehicle data). -/
structure DriverEntry where
  vehicleId : String
  latitude : Option Int
  longitude : Option Int
deriving DecidableEq, Repr

/-- A value of the `pendingRequests` map: the formatted request snapshot
plus the socket id recorded as its contact point. -/
structure PendingEntry where
  socketId : String
  location : Location
  patientCount : Nat
  criticalLevel : String
  createdAt : Nat
deriving DecidableEq, Repr

/-- The shared mutable state of the server process: the two collections of
the durable store and the two in-memory maps. -/
structure ServerState where
  ambulances : SMap AmbulanceRec
  requests : SMap EmergencyRec
  activeDrivers : SMap DriverEntry
  pendingRequests : SMap PendingEntry
deriving DecidableEq, Repr

/-! ## Observable actions -/

/-- Delivery targets of `socket.emit` / namespace broadcasts. -/
inductive Target
  | driverSock (sid : String)
  | driverAll
  | clientSock (sid : String)
  | clientAll
deriving DecidableEq, Repr

/-- The events emitted by the handlers in scope. -/
inductive Event
  | acceptedProgress
  | acceptedProgressDisable
  | acceptError (msg : String)
  | requestError (msg : String)
  | requestRemoved (requestId : String)
  | removeAmbulance (vehicleId : String)
  | ambulanceLocation (vehicleId : String) (latitude longitude : Int)
  | newEmergencyRequest (requestId : String)
  | pendingList (ids : List String)
deriving DecidableEq, Repr

/-- One observable step of a handler, in program order. `persistAmb` and
`persistReq` record a store write that matched (and therefore changed) a
document; a mongoose update that matches nothing, or that throws, records
no persist action. -/
inductive Act
  | persistAmb (vehicleId : String)
  | persistReq (requestId : String)
  | joinRoom (sid roomId : String)
  | clientJoinRoom (sid roomId : String)
  | emit (t : Target) (e : Event)
deriving DecidableEq, Repr

/-! ## Handler embeddings (driver namespace, then client namespace) -/

/-- JS loose equality of a string against `false` (`status == false`), used
by the `update-status` handler: a string is loosely equal to `false` when
its numeric coercion is `0`, i.e. it is blank or the numeral zero. -/
def looseEqFalse (s : String) : Bool := s.trim == "" || s.trim == "0"

/-- The formatted snapshot stored into `pendingRequests` by the re-scan in
`get-pending-requests` and `accept-request`, with the scanning socket id
recorded as the contact point. -/
def snapshotEntry (sid : String) (r : EmergencyRec) : PendingEntry :=
  { socketId := sid
    location := r.location
    patientCount := r.patientCount
    criticalLevel := r.criticalLevel
    createdAt := r.createdAt }

/-- The cache re-population both driver request handlers perform: fetch all
requests whose status is `pending` and `Map.set` each into
`pendingRequests` keyed by its id, overwriting any existing entry. -/
def repopulate (s : ServerState) (sid : String) : ServerState :=
  let pend :=
    (s.requests.filter (fun kv => kv.2.status == "pending")).foldl
      (fun m kv => SMap.insert m kv.1 (snapshotEntry sid kv.2))
      s.pendingRequests
  { s with pendingRequests := pend }

/-- `update-status` handler (main server file, lines 60-102). On a store
failure the catch block only logs, so the state and the action list are
both unchanged. -/
def updateStatus (s : ServerState) (sid vehicleId status : String)
    (now : Nat) (fail : Bool) : ServerState × List Act :=
  if fail then (s, [])
  else
    match SMap.find? s.ambulances vehicleId with
    | some a =>
      let a' : AmbulanceRec :=
        { a with
          status := status
          discount :=
            if status = "offline" || status = "at_hospital" then false
            else a.discount
          lastUpdated := some now }
      let s1 := { s with ambulances := SMap.insert s.ambulances vehicleId a' }
      let acts :=
        [Act.persistAmb vehicleId] ++
          (if looseEqFalse status then
            [Act.emit Target.clientAll (Event.removeAmbulance vehicleId)]
          else [])
      let s2 :=
        if status = "offline" || status = "at_hospital" then
          { s1 with activeDrivers := SMap.erase s1.activeDrivers sid }
        else
          { s1 with activeDrivers :=
              SMap.insert s1.activeDrivers sid ⟨vehicleId, none, none⟩ }
      (s2, acts)
    | none => (s, [])

/-- `location-update` handler (lines 104-125). The broadcast to the client
group is emitted whenever the store call does not throw, even when no
vehicle matched the id; the catch block only logs. -/
def locationUpdate (s : ServerState) (sid vehicleId : String)
    (lat lon : Int) (now : Nat) (fail : Bool) : ServerState × List Act :=
  if fail then (s, [])
  else
    match SMap.find? s.ambulances vehicleId with
    | some a =>
      let a' := { a with latitude := some lat, longitude := some lon,
                         lastUpdated := some now }
      ({ s with ambulances := SMap.insert s.ambulances vehicleId a' },
       [Act.persistAmb vehicleId,
        Act.emit Target.clientAll (Event.ambulanceLocation vehicleId lat lon)])
    | none =>
      (s, [Act.emit Target.clientAll
            (Event.ambulanceLocation vehicleId lat lon)])

/-- `get-pending-requests` handler (lines 127-164). -/
def getPendingRequests (s : ServerState) (sid : String) (fail : Bool) :
    ServerState × List Act :=
  if fail then
    (s, [Act.emit (Target.driverSock sid)
          (Event.requestError "Failed to fetch pending requests")])
  else
    let ids := (s.requests.filter (fun kv => kv.2.status == "pending")).map
      Prod.fst
    (repopulate s sid,
     [Act.emit (Target.driverSock sid) (Event.pendingList ids)])

/-- Segment of the `accept-request` handler (lines 166-222) that runs when
the initial pending-request fetch resolves: re-populate the cache, then
`Map.get` the requested id. On a miss, emit `accept-error` and stop (the
returned flag is `false`). On a hit, join the private room, make the cached
contact socket join it, emit `accepted-progress`, and suspend on the store
update (flag `true`). -/
def acceptResume1 (s : ServerState) (sid requestId : String) :
    ServerState × List Act × Bool :=
  let s1 := repopulate s sid
  match SMap.find? s1.pendingRequests requestId with
  | none =>
    (s1, [Act.emit (Target.driverSock sid)
           (Event.acceptError "Request no longer available")], false)
  | some entry =>
    let roomId := "emergency-" ++ requestId
    (s1, [Act.joinRoom sid roomId,
          Act.clientJoinRoom entry.socketId roomId,
          Act.emit (Target.driverSock sid) Event.acceptedProgress], true)

/-- Segment of `accept-request` that runs when the `findByIdAndUpdate`
store call resolves: on failure the catch block emits `accept-error`; on
success the document (if any matched) now carries status `accepted` and the
accepting vehicle id, the cache entry is deleted, and `request-removed` is
broadcast to all drivers. -/
def acceptResume2 (s : ServerState) (sid requestId vehicleId : String)
    (fail : Bool) : ServerState × List Act :=
  if fail then
    (s, [Act.emit (Target.driverSock sid) (Event.acceptError "StoreError")])
  else
    let wrote := (SMap.find? s.requests requestId).isSome
    let reqs := SMap.update s.requests requestId
      (fun r => { r with status := "accepted", ambulanceId := some vehicleId })
    let s1 := { s with requests := reqs }
    let s2 := { s1 with pendingRequests := SMap.erase s1.pendingRequests requestId }
    (s2, (if wrote then [Act.persistReq requestId] else []) ++
         [Act.emit Target.driverAll (Event.requestRemoved requestId)])

/-- The whole `accept-request` handler run without interleaving: the two
resume segments in sequence. `failFind` makes the initial fetch throw
(catch emits `accept-error`); `failUpdate` makes the status write throw. -/
def acceptRequest (s : ServerState) (sid requestId vehicleId : String)
    (failFind failUpdate : Bool) : ServerState × List Act :=
  if failFind then
    (s, [Act.emit (Target.driverSock sid) (Event.acceptError "StoreError")])
  else
    let r1 := acceptResume1 s sid requestId
    if r1.2.2 then
      let r2 := acceptResume2 r1.1 sid requestId vehicleId failUpdate
      (r2.1, r1.2.1 ++ r2.2)
    else
      (r1.1, r1.2.1)

/-- `update-request-status` handler (lines 223-240): writes the supplied
status verbatim onto the request document, touching nothing else, and acks
with `accepted-progress-disable`; the catch block only logs. -/
def updateRequestStatus (s : ServerState) (sid requestId status : String)
    (fail : Bool) : ServerState × List Act :=
  if fail then (s, [])
  else
    let wrote := (SMap.find? s.requests requestId).isSome
    let reqs := SMap.update s.requests requestId
      (fun r => { r with status := status })
    ({ s with requests := reqs },
     (if wrote then [Act.persistReq requestId] else []) ++
     [Act.emit (Target.driverSock sid) Event.acceptedProgressDisable])

/-- Driver `disconnect` handler (lines 243-277): an unregistered socket
returns immediately; a registered one persists its vehicle offline with the
discount flag cleared, broadcasts `remove-ambulance` when a vehicle
matched, and unregisters itself. A store failure leaves the registry entry
in place (the delete sits after the await inside the try block). -/
def disconnectDriver (s : ServerState) (sid : String) (now : Nat)
    (fail : Bool) : ServerState × List Act :=
  match SMap.find? s.activeDrivers sid with
  | none => (s, [])
  | some d =>
    if fail then (s, [])
    else
      match SMap.find? s.ambulances d.vehicleId with
      | some a =>
        let a' := { a with status := "offline", discount := false,
                           lastUpdated := some now }
        let ambs := SMap.insert s.ambulances d.vehicleId a'
        let s1 := { s with ambulances := ambs }
        ({ s1 with activeDrivers := SMap.erase s1.activeDrivers sid },
         [Act.persistAmb d.vehicleId,
          Act.emit Target.clientAll (Event.removeAmbulance d.vehicleId)])
      | none =>
        ({ s with activeDrivers := SMap.erase s.activeDrivers sid }, [])

/-- The `userId` object of an `emergency-request` payload. -/
structure UserRef where
  id : String
deriving DecidableEq, Repr

/-- An `emergency-request` payload; absent fields are `none`. -/
structure RequestPayload where
  userId : Option UserRef
  location : Option Location
  emergencyDetails : Option String
  patientCount : Option Nat
  criticalLevel : Option String
deriving DecidableEq, Repr

/-- Client `emergency-request` handler (lines 304-346). Validation rejects
a missing `userId` or `location`. The new document is created with
`_id := userId._id`, so `save` raises a duplicate-key error whenever a
request with that id already exists; any error reaches the catch block,
which emits `request-error` to the submitter. On success the document is
inserted, cached, and `new-emergency-request` is broadcast to all
drivers. -/
def emergencyRequest (s : ServerState) (sid : String) (p : RequestPayload)
    (now : Nat) (failSave : Bool) : ServerState × List Act :=
  match p.userId, p.location with
  | some u, some loc =>
    let newId := u.id
    let rec0 : EmergencyRec :=
      { requesterId := u.id
        location := loc
        ambulanceId := none
        status := "pending"
        emergencyDetails := p.emergencyDetails
        patientCount := p.patientCount.getD 1
        criticalLevel := p.criticalLevel.getD "medium"
        createdAt := now }
    if failSave || (SMap.find? s.requests newId).isSome then
      (s, [Act.emit (Target.clientSock sid)
            (Event.requestError "Failed to process emergency request")])
    else
      let s1 := { s with requests := SMap.insert s.requests newId rec0 }
      let pend := SMap.insert s1.pendingRequests newId
        { socketId := sid, location := loc,
          patientCount := rec0.patientCount,
          criticalLevel := rec0.criticalLevel, createdAt := now }
      let s2 := { s1 with pendingRequests := pend }
      (s2, [Act.persistReq newId,
            Act.emit Target.driverAll (Event.newEmergencyRequest newId)])
  | _, _ =>
    (s, [Act.emit (Target.clientSock sid)
          (Event.requestError "Failed to process emergency request")])

/-- Registry eviction of a pending request, as performed by
`pendingRequests.delete` (line 216). -/
def removePendingRequest (s : ServerState) (requestId : String) :
    ServerState :=
  { s with pendingRequests := SMap.erase s.pendingRequests requestId }

/-- Registry removal of a driver session, as performed by
`activeDrivers.delete` (lines 88 and 273). -/
def unregisterDriver (s : ServerState) (sid : String) : ServerState :=
  { s with activeDrivers := SMap.erase s.activeDrivers sid }

/-! ## Interleaved execution of concurrent accept-request handlers

The Node.js event loop runs a handler atomically between `await`
suspension points. The `accept-request` handler suspends twice: at the
initial pending-request fetch and at the status write. Two handlers for
different sockets may therefore interleave at segment granularity. -/

/-- A suspended `accept-request` handler invocation: its socket and
payload, a program counter (0 = before the fetch resolves, 1 = before the
status write resolves, 2 = finished) and the actions performed so far. -/
structure AcceptTask where
  sid : String
  requestId : String
  vehicleId : String
  pc : Nat
  out : List Act
deriving DecidableEq, Repr

/-- Run the next atomic segment of a suspended accept invocation against
the shared state (store operations are assumed not to fail here). -/
def taskStep (s : ServerState) (t : AcceptTask) : ServerState × AcceptTask :=
  if t.pc = 0 then
    let r := acceptResume1 s t.sid t.requestId
    (r.1, { t with pc := if r.2.2 then 1 else 2, out := t.out ++ r.2.1 })
  else if t.pc = 1 then
    let r := acceptResume2 s t.sid t.requestId t.vehicleId false
    (r.1, { t with pc := 2, out := t.out ++ r.2 })
  else (s, t)

/-- Shared state plus two in-flight accept invocations. -/
structure World where
  st : ServerState
  ta : AcceptTask
  tb : AcceptTask
deriving DecidableEq, Repr

/-- Schedule one event-loop turn: run the next segment of task A
(`true`) or task B (`false`). -/
def worldStep (w : World) (pickA : Bool) : World :=
  if pickA then
    let r := taskStep w.st w.ta
    { w with st := r.1, ta := r.2 }
  else
    let r := taskStep w.st w.tb
    { w with st := r.1, tb := r.2 }

/-- Run a whole interleaving schedule. -/
def runSchedule (w : World) (sched : List Bool) : World :=
  sched.foldl worldStep w

/-! ## Observation helpers -/

/-- Whether an action is an `accept-error` emission. -/
def isAcceptErrorEmit : Act → Bool
  | .emit _ (.acceptError _) => true
  | _ => false

/-- Whether the action list contains an `accept-error` emission. -/
def hasAcceptError (acts : List Act) : Bool := acts.any isAcceptErrorEmit

/-- Whether an action is an error acknowledgement addressed to the given
socket (`accept-error` or `request-error` on either namespace). -/
def isErrorAckTo (sid : String) : Act → Bool
  | .emit (.driverSock s) (.acceptError _) => s == sid
  | .emit (.driverSock s) (.requestError _) => s == sid
  | .emit (.clientSock s) (.requestError _) => s == sid
  | _ => false

/-- Whether the action list contains an error acknowledgement to the given
socket. -/
def hasErrorAck (sid : String) (acts : List Act) : Bool :=
  acts.any (isErrorAckTo sid)

/-- Index of the first action satisfying the predicate. -/
def firstIdx (p : Act → Bool) : List Act → Option Nat
  | [] => none
  | a :: t => if p a then some 0 else (firstIdx p t).map (· + 1)

/-- Scan check: every `request-removed{rid}` broadcast in the list is
preceded by a successful persist of request `rid`. The accumulator records
whether such a persist has been seen. -/
def removedAfterPersist (rid : String) : List Act → Bool → Bool
  | [], _ => true
  | a :: t, seen =>
    match a with
    | .persistReq r =>
      removedAfterPersist rid t (seen || r == rid)
    | .emit _ (.requestRemoved r) =>
      (r != rid || seen) && removedAfterPersist rid t seen
    | _ => removedAfterPersist rid t seen

/-- Scan check: every `ambulance-location{vid}` broadcast in the list is
preceded by a successful persist of vehicle `vid`. -/
def locationAfterPersist (vid : String) : List Act → Bool → Bool
  | [], _ => true
  | a :: t, seen =>
    match a with
    | .persistAmb v =>
      locationAfterPersist vid t (seen || v == vid)
    | .emit _ (.ambulanceLocation v _ _) =>
      (v != vid || seen) && locationAfterPersist vid t seen
    | _ => locationAfterPersist vid t seen

/-- The invariant claimed for request documents: an assigned vehicle is
present exactly when the status is `accepted`, `in_progress` or
`completed`. -/
def reqInvariant (r : EmergencyRec) : Bool :=
  r.ambulanceId.isSome ==
    (r.status == "accepted" || r.status == "in_progress" ||
     r.status == "completed")

/-- The request invariant over every document of the collection. -/
def allReqInvariant (s : ServerState) : Bool :=
  s.requests.all (fun kv => reqInvariant kv.2)

/-! ## Concrete scenario used by several witnesses -/

/-- A pending request document submitted by client `client-1`. -/
def recR1 : EmergencyRec :=
  { requesterId := "client-1"
    location := { latitude := 10, longitude := 20, address := none }
    ambulanceId := none
    status := "pending"
    emergencyDetails := none
    patientCount := 1
    criticalLevel := "medium"
    createdAt := 0 }

/-- An available ambulance record for vehicle `AMB-1`. -/
def ambA : AmbulanceRec :=
  { userId := "user-A"
    vehicleId := "AMB-1"
    vehicleType := "basic"
    latitude := none
    longitude := none
    lastUpdated := none
    status := "available"
    discount := true }

/-- A server state with one pending request `R1` (persisted and cached
with the submitting client socket as contact) and one ambulance. -/
def s0 : ServerState :=
  { ambulances := [("AMB-1", ambA)]
    requests := [("R1", recR1)]
    activeDrivers := [("drv-sock-A", ⟨"AMB-1", none, none⟩)]
    pendingRequests :=
      [("R1", { socketId := "cli-sock-1", location := recR1.location,
                patientCount := 1, criticalLevel := "medium",
                createdAt := 0 })] }

/-- Two drivers racing to accept `R1`: each is a fresh invocation of the
accept handler over the shared state `s0`. -/
def raceWorld : World :=
  { st := s0
    ta := { sid := "drv-sock-A", requestId := "R1", vehicleId := "AMB-1",
            pc := 0, out := [] }
    tb := { sid := "drv-sock-B", requestId := "R1", vehicleId := "AMB-2",
            pc := 0, out := [] } }

/-- The interleaving in which both invocations pass their cache lookup
before either reaches its delete: A up to its status-write suspension, then
B up to the same point, then both writes resolve. -/
def raceResult : World := runSchedule raceWorld [true, false, true, false]

/-! ## Claim theorems -/

/-- Claim C1: the claim states that of concurrent accept-request calls for
the same request id exactly one succeeds and the rest get the
request-unavailable error, the cache claim being an atomic
lookup-and-remove. The code separates the `Map.get` from the
`Map.delete` by an awaited store write (and re-inserts the entry from the
store on every call), so in the interleaving `raceResult` both drivers
pass the lookup: both receive `accepted-progress` and neither receives
`accept-error`. -/
theorem c1_concurrent_accepts_both_succeed :
    Act.emit (Target.driverSock "drv-sock-A") Event.acceptedProgress ∈
      raceResult.ta.out ∧
    Act.emit (Target.driverSock "drv-sock-B") Event.acceptedProgress ∈
      raceResult.tb.out ∧
    hasAcceptError raceResult.ta.out = false ∧
    hasAcceptError raceResult.tb.out = false := by decide

/-- Claim C9: `removePendingRequest` and `unregisterDriver` are
idempotent, and removing an absent entry is a no-op with no error and no
observable effect (both operations are pure registry updates that emit
nothing). -/
theorem c9_removal_idempotent (s : ServerState) (requestId sid : String) :
    removePendingRequest (removePendingRequest s requestId) requestId =
      removePendingRequest s requestId ∧
    unregisterDriver (unregisterDriver s sid) sid = unregisterDriver s sid ∧
    (SMap.find? s.pendingRequests requestId = none →
      removePendingRequest s requestId = s) ∧
    (SMap.find? s.activeDrivers sid = none → unregisterDriver s sid = s) := by
  refine ⟨?_, ?_, ?_, ?_⟩
  · simp [removePendingRequest, SMap.erase_erase]
  · simp [unregisterDriver, SMap.erase_erase]
  · intro h
    simp [removePendingRequest, SMap.erase_of_find?_none _ _ h]
  · intro h
    simp [unregisterDriver, SMap.erase_of_find?_none _ _ h]

/-- Witness for C9 at a concrete state: removing an id that is not cached
returns the state unchanged. -/
theorem c9_removal_idempotent_witness :
    removePendingRequest s0 "R2" = s0 :=
  (c9_removal_idempotent s0 "R2" "nobody").2.2.1 (by decide)

/-- Claim C6: a submission whose payload has no location fails with the
validation error reported back to the submitting connection as
`request-error`, nothing is persisted, and no `new-emergency-request`
broadcast is sent: the handler returns the state unchanged and emits
exactly the one error event. -/
theorem c6_missing_location_rejected (s : ServerState) (sid : String)
    (p : RequestPayload) (now : Nat) (failSave : Bool)
    (hloc : p.location = none) :
    emergencyRequest s sid p now failSave =
      (s, [Act.emit (Target.clientSock sid)
            (Event.requestError "Failed to process emergency request")]) := by
  cases hu : p.userId <;> simp [emergencyRequest, hu, hloc]

/-- A payload missing its location. -/
def noLocPayload : RequestPayload :=
  { userId := some ⟨"client-1"⟩
    location := none
    emergencyDetails := none
    patientCount := none
    criticalLevel := none }

/-- Witness for C6 at a concrete payload. -/
theorem c6_missing_location_rejected_witness :
    emergencyRequest s0 "cli-sock-1" noLocPayload 5 false =
      (s0, [Act.emit (Target.clientSock "cli-sock-1")
             (Event.requestError "Failed to process emergency request")]) :=
  c6_missing_location_rejected s0 "cli-sock-1" noLocPayload 5 false rfl

/-- Claim C8: every status update that sets `offline` or `at_hospital` —
through `update-status` or through disconnect cleanup — also writes
`discount := false` onto the persisted vehicle record in the same
update. -/
theorem c8_offline_clears_discount (s : ServerState)
    (sid vehicleId st : String) (now : Nat)
    (hst : st = "offline" ∨ st = "at_hospital") :
    (∀ a, SMap.find? s.ambulances vehicleId = some a →
      SMap.find? (updateStatus s sid vehicleId st now false).1.ambulances
          vehicleId =
        some { a with status := st, discount := false,
                      lastUpdated := some now }) ∧
    (∀ d, SMap.find? s.activeDrivers sid = some d →
      ∀ a, SMap.find? s.ambulances d.vehicleId = some a →
      SMap.find? (disconnectDriver s sid now false).1.ambulances d.vehicleId =
        some { a with status := "offline", discount := false,
                      lastUpdated := some now }) := by
  constructor
  · intro a ha
    rcases hst with h | h <;> subst h <;>
      simp [updateStatus, ha, SMap.find?_insert_self]
  · intro d hd a ha
    simp [disconnectDriver, hd, ha, SMap.find?_insert_self]

/-- Witness for C8: taking vehicle `AMB-1` of `s0` offline clears its
discount flag. -/
theorem c8_offline_clears_discount_witness :
    SMap.find? (updateStatus s0 "drv-sock-A" "AMB-1" "offline" 7 false).1.ambulances
        "AMB-1" =
      some { ambA with status := "offline", discount := false,
                       lastUpdated := some 7 } :=
  (c8_offline_clears_discount s0 "drv-sock-A" "AMB-1" "offline" 7
    (Or.inl rfl)).1 ambA (by decide)

/-- Claim C5: a driver disconnecting while registered with vehicle V (V
present in the store, which holds for every entry the code registers,
since registration only happens after a successful vehicle update)
persists V as offline with discount cleared and broadcasts
`remove-ambulance{V}` to the client group; an unregistered disconnect
leaves the state untouched and emits nothing. -/
theorem c5_disconnect_cleanup (s : ServerState) (sid : String) (now : Nat) :
    (∀ d, SMap.find? s.activeDrivers sid = some d →
      ∀ a, SMap.find? s.ambulances d.vehicleId = some a →
      SMap.find? (disconnectDriver s sid now false).1.ambulances d.vehicleId =
        some { a with status := "offline", discount := false,
                      lastUpdated := some now } ∧
      Act.emit Target.clientAll (Event.removeAmbulance d.vehicleId) ∈
        (disconnectDriver s sid now false).2) ∧
    (SMap.find? s.activeDrivers sid = none →
      disconnectDriver s sid now false = (s, [])) := by
  constructor
  · intro d hd a ha
    simp [disconnectDriver, hd, ha, SMap.find?_insert_self]
  · intro h
    simp [disconnectDriver, h]

/-- Witness for C5 at `s0`: disconnecting the registered driver socket
takes `AMB-1` offline and broadcasts its removal. -/
theorem c5_disconnect_cleanup_witness :
    SMap.find? (disconnectDriver s0 "drv-sock-A" 4 false).1.ambulances "AMB-1" =
      some { ambA with status := "offline", discount := false,
                       lastUpdated := some 4 } ∧
    Act.emit Target.clientAll (Event.removeAmbulance "AMB-1") ∈
      (disconnectDriver s0 "drv-sock-A" 4 false).2 :=
  (c5_disconnect_cleanup s0 "drv-sock-A" 4).1 ⟨"AMB-1", none, none⟩
    (by decide) ambA (by decide)

/-- Counterexample to claim C7: a store failure in `update-status` reaches
a catch block that only logs — the handler returns with no state change
and emits nothing at all, so the failing call produces no error
acknowledgement; `location-update` and `update-request-status` fail just
as silently. -/
theorem c7_silent_failures :
    updateStatus s0 "drv-sock-A" "AMB-1" "available" 3 true = (s0, []) ∧
    locationUpdate s0 "drv-sock-A" "AMB-1" 1 2 3 true = (s0, []) ∧
    updateRequestStatus s0 "drv-sock-A" "R1" "completed" true = (s0, []) :=
  ⟨rfl, rfl, rfl⟩

/-- Claim C7 as amended: only `get-pending-requests`, `accept-request` and
`emergency-request` acknowledge their failures with an error event to the
calling connection; a failing `update-status`, `location-update` or
`update-request-status` emits nothing and leaves the state unchanged. -/
theorem c7_error_ack_coverage (s : ServerState) (sid rid vid st : String)
    (p : RequestPayload) (lat lon : Int) (now : Nat) (fU : Bool) :
    hasErrorAck sid (getPendingRequests s sid true).2 = true ∧
    hasErrorAck sid (acceptRequest s sid rid vid true fU).2 = true ∧
    hasErrorAck sid (acceptRequest s sid rid vid false true).2 = true ∧
    hasErrorAck sid (emergencyRequest s sid p now true).2 = true ∧
    updateStatus s sid vid st now true = (s, []) ∧
    locationUpdate s sid vid lat lon now true = (s, []) ∧
    updateRequestStatus s sid rid st true = (s, []) := by
  refine ⟨?_, ?_, ?_, ?_, ?_, ?_, ?_⟩
  · simp [getPendingRequests, hasErrorAck, isErrorAckTo]
  · simp [acceptRequest, hasErrorAck, isErrorAckTo]
  · cases hfind : SMap.find? (repopulate s sid).pendingRequests rid <;>
      simp [acceptRequest, acceptResume1, acceptResume2, hfind,
        hasErrorAck, isErrorAckTo]
  · cases hu : p.userId <;> cases hl : p.location <;>
      simp [emergencyRequest, hu, hl, hasErrorAck, isErrorAckTo]
  · rfl
  · rfl
  · rfl

/-- Claim C10: the persisted document id of a submission is forced to the
payload userId id: a first submission for that user inserts the document
under that key, and any later submission with the same userId hits the
duplicate-key error and only gets `request-error` back (state unchanged,
no broadcast). -/
theorem c10_request_id_is_user_id (s : ServerState) (sid : String)
    (p : RequestPayload) (now : Nat) (u : UserRef) (loc : Location)
    (hu : p.userId = some u) (hl : p.location = some loc) :
    (SMap.find? s.requests u.id = none →
      SMap.find? (emergencyRequest s sid p now false).1.requests u.id =
        some { requesterId := u.id, location := loc, ambulanceId := none,
               status := "pending", emergencyDetails := p.emergencyDetails,
               patientCount := p.patientCount.getD 1,
               criticalLevel := p.criticalLevel.getD "medium",
               createdAt := now }) ∧
    (∀ r, SMap.find? s.requests u.id = some r →
      emergencyRequest s sid p now false =
        (s, [Act.emit (Target.clientSock sid)
              (Event.requestError "Failed to process emergency request")])) := by
  constructor
  · intro h
    simp [emergencyRequest, hu, hl, h, SMap.find?_insert_self]
  · intro r h
    simp [emergencyRequest, hu, hl, h]

/-- A complete payload whose userId already has a persisted request
in `s0`. -/
def dupPayload : RequestPayload :=
  { userId := some ⟨"R1"⟩
    location := some { latitude := 3, longitude := 4, address := none }
    emergencyDetails := none
    patientCount := none
    criticalLevel := none }

/-- Witness for C10: resubmitting for the user whose id already keys a
persisted request yields only `request-error`. -/
theorem c10_request_id_is_user_id_witness :
    emergencyRequest s0 "cli-sock-1" dupPayload 9 false =
      (s0, [Act.emit (Target.clientSock "cli-sock-1")
             (Event.requestError "Failed to process emergency request")]) :=
  (c10_request_id_is_user_id s0 "cli-sock-1" dupPayload 9 ⟨"R1"⟩
    { latitude := 3, longitude := 4, address := none } rfl rfl).2 recR1
    (by decide)

/-- Claim C2: an accept-request call that succeeds — it emitted
`accepted-progress` and no `accept-error` — leaves the persisted request
(present in the store, as every cached request in reach of the handler is)
with status `accepted` and the accepting vehicle id, and the cache no
longer contains the request id. -/
theorem c2_accept_success_postcondition (s : ServerState)
    (sid rid vid : String) (fF fU : Bool) (r : EmergencyRec)
    (hdb : SMap.find? s.requests rid = some r)
    (hsucc : Act.emit (Target.driverSock sid) Event.acceptedProgress ∈
      (acceptRequest s sid rid vid fF fU).2)
    (hnoerr : hasAcceptError (acceptRequest s sid rid vid fF fU).2 = false) :
    SMap.find? (acceptRequest s sid rid vid fF fU).1.requests rid =
      some { r with status := "accepted", ambulanceId := some vid } ∧
    SMap.find? (acceptRequest s sid rid vid fF fU).1.pendingRequests rid =
      none := by
  cases fF with
  | true => simp [acceptRequest] at hsucc
  | false =>
    cases hfind : SMap.find? (repopulate s sid).pendingRequests rid with
    | none =>
      rw [acceptRequest] at hsucc
      simp [acceptResume1, hfind] at hsucc
    | some entry =>
      cases fU with
      | true =>
        rw [acceptRequest] at hnoerr
        simp [acceptResume1, acceptResume2, hfind, hasAcceptError,
          isAcceptErrorEmit] at hnoerr
      | false =>
        have hdb1 : SMap.find? (repopulate s sid).requests rid = some r := hdb
        constructor
        · rw [acceptRequest]
          simp only [acceptResume1, acceptResume2, hfind]
          simp [SMap.find?_update_self _ _ _ _ hdb1]
        · rw [acceptRequest]
          simp only [acceptResume1, acceptResume2, hfind]
          simp [SMap.find?_erase_self]

/-- Witness for C2: the sequential accept of `R1` by `AMB-1` over `s0`. -/
theorem c2_accept_success_postcondition_witness :
    SMap.find? (acceptRequest s0 "drv-sock-A" "R1" "AMB-1" false false).1.requests
        "R1" =
      some { recR1 with status := "accepted", ambulanceId := some "AMB-1" } ∧
    SMap.find?
        (acceptRequest s0 "drv-sock-A" "R1" "AMB-1" false false).1.pendingRequests
        "R1" = none :=
  c2_accept_success_postcondition s0 "drv-sock-A" "R1" "AMB-1" false false
    recR1 (by decide) (by decide) (by decide)

/-- `allReqInvariant` unfolded to quantification over the collection. -/
theorem allReqInvariant_iff (s : ServerState) :
    allReqInvariant s = true ↔ ∀ kv ∈ s.requests, reqInvariant kv.2 = true := by
  simp [allReqInvariant, List.all_eq_true]

/-- Counterexample to claim C3: starting from a state whose documents all
satisfy the assigned-vehicle invariant, one `update-request-status` call
with status `in_progress` on the still-unassigned request `R1` writes a
document whose status is in the assigned set while its assigned-vehicle
field stays null — the operation does not preserve the invariant. -/
theorem c3_update_request_status_breaks_invariant :
    allReqInvariant s0 = true ∧
    SMap.find?
        (updateRequestStatus s0 "drv-sock-A" "R1" "in_progress" false).1.requests
        "R1" =
      some { recR1 with status := "in_progress" } ∧
    reqInvariant { recR1 with status := "in_progress" } = false := by decide

/-- Claim C3 as amended: submit and accept preserve the assigned-vehicle
invariant (submit creates a `pending` document with no vehicle; accept
writes `accepted` together with the vehicle reference in one update), but
`update-request-status` does not, since it writes an arbitrary status
without touching the assigned-vehicle field. -/
theorem c3_submit_accept_preserve_invariant (s : ServerState)
    (hinv : allReqInvariant s = true) :
    (∀ sid p now fS,
      allReqInvariant (emergencyRequest s sid p now fS).1 = true) ∧
    (∀ sid rid vid fF fU,
      allReqInvariant (acceptRequest s sid rid vid fF fU).1 = true) := by
  rw [allReqInvariant_iff] at hinv
  constructor
  · intro sid p now fS
    rw [allReqInvariant_iff]
    cases hu : p.userId with
    | none => simp [emergencyRequest, hu]; exact fun k v h => hinv (k, v) h
    | some u =>
      cases hl : p.location with
      | none => simp [emergencyRequest, hu, hl]; exact fun k v h => hinv (k, v) h
      | some loc =>
        cases hd : (fS || (SMap.find? s.requests u.id).isSome) with
        | true =>
          rw [emergencyRequest]
          simp [hu, hl, hd]
          exact fun k v h => hinv (k, v) h
        | false =>
          rw [emergencyRequest]
          simp only [hu, hl, hd, if_false, Bool.false_eq_true, if_neg,
            not_false_eq_true]
          intro kv hkv
          rcases SMap.mem_insert _ _ _ _ hkv with h | h
          · rw [h]; rfl
          · exact hinv kv h
  · intro sid rid vid fF fU
    rw [allReqInvariant_iff]
    cases fF with
    | true => exact fun kv h => hinv kv h
    | false =>
      cases hfind : SMap.find? (repopulate s sid).pendingRequests rid with
      | none =>
        rw [acceptRequest]
        simp [acceptResume1, hfind]
        exact fun k v h => hinv (k, v) h
      | some entry =>
        cases fU with
        | true =>
          rw [acceptRequest]
          simp [acceptResume1, acceptResume2, hfind]
          exact fun k v h => hinv (k, v) h
        | false =>
          rw [acceptRequest]
          simp only [acceptResume1, acceptResume2, hfind]
          intro kv hkv
          simp only [Bool.false_eq_true, if_false, if_true] at hkv
          rcases SMap.mem_update _ _ _ _ hkv with h | ⟨v, _, hkv'⟩
          · exact hinv kv h
          · rw [hkv']; rfl

/-- Witness for C3 as amended: accepting `R1` over `s0` keeps every
persisted request document inside the invariant. -/
theorem c3_submit_accept_preserve_invariant_witness :
    allReqInvariant (acceptRequest s0 "drv-sock-A" "R1" "AMB-1" false false).1 =
      true :=
  (c3_submit_accept_preserve_invariant s0 (by decide)).2 "drv-sock-A" "R1"
    "AMB-1" false false

/-- The action trace of the sequential, failure-free accept of `R1`. -/
def c4acts : List Act :=
  (acceptRequest s0 "drv-sock-A" "R1" "AMB-1" false false).2

/-- Whether an action is the driver success notice `accepted-progress`. -/
def isSuccessNotice : Act → Bool
  | .emit _ .acceptedProgress => true
  | _ => false

/-- Whether an action is a successful request persist. -/
def isPersistReqAct : Act → Bool
  | .persistReq _ => true
  | _ => false

/-- Counterexample to claim C4: in the accept trace the driver success
notice `accepted-progress` sits at index 2, before the persist of the
accepted transition at index 3 — the success notification is emitted
before the authoritative persistence step, not after it. -/
theorem c4_success_notice_precedes_persist :
    firstIdx isSuccessNotice c4acts = some 2 ∧
    firstIdx isPersistReqAct c4acts = some 3 := by decide

/-- The cache re-scan leaves the request collection untouched. -/
theorem repopulate_requests (s : ServerState) (sid : String) :
    (repopulate s sid).requests = s.requests := rfl

/-- Claim C4 as amended: the broadcasts do come after the successful
persist — `request-removed{rid}` is only emitted after the store
transition of `rid` to accepted succeeded (for a persisted `rid`), and
`ambulance-location{vid}` only after the location persist of a stored
vehicle `vid` succeeded — but the driver success notice in accept-request
precedes its persist. -/
theorem c4_broadcasts_after_persist (s : ServerState) (sid rid vid : String)
    (lat lon : Int) (now : Nat) (fF fU fail : Bool)
    (r : EmergencyRec) (hdb : SMap.find? s.requests rid = some r)
    (a : AmbulanceRec) (hamb : SMap.find? s.ambulances vid = some a) :
    removedAfterPersist rid (acceptRequest s sid rid vid fF fU).2 false =
      true ∧
    locationAfterPersist vid
        (locationUpdate s sid vid lat lon now fail).2 false = true := by
  constructor
  · cases fF with
    | true => simp [acceptRequest, removedAfterPersist]
    | false =>
      cases hfind : SMap.find? (repopulate s sid).pendingRequests rid with
      | none =>
        rw [acceptRequest]
        simp [acceptResume1, hfind, removedAfterPersist]
      | some entry =>
        cases fU with
        | true =>
          rw [acceptRequest]
          simp [acceptResume1, acceptResume2, hfind, removedAfterPersist]
        | false =>
          rw [acceptRequest]
          simp [acceptResume1, acceptResume2, hfind, repopulate_requests, hdb,
            removedAfterPersist]
  · cases fail with
    | true => simp [locationUpdate, locationAfterPersist]
    | false => simp [locationUpdate, hamb, locationAfterPersist]

/-- Witness for C4 as amended, at the concrete state `s0`. -/
theorem c4_broadcasts_after_persist_witness :
    removedAfterPersist "R1"
        (acceptRequest s0 "drv-sock-A" "R1" "AMB-1" false false).2 false =
      true ∧
    locationAfterPersist "AMB-1"
        (locationUpdate s0 "drv-sock-A" "AMB-1" 1 2 3 false).2 false = true :=
  c4_broadcasts_after_persist s0 "drv-sock-A" "R1" "AMB-1" 1 2 3 false false
    false recR1 (by decide) ambA (by decide)
